import Mathlib

/-!
Shallow embedding of the interaction-response tracker and the layered error
classifier of the `sparkle_convenience` crate (src/src/interaction.rs,
src/src/error.rs, src/src/error/http_error.rs, src/src/reply.rs), together
with proofs of the specified properties.

Conventions of the embedding:
* Discord snowflake ids and permission bitflags (`u64` in the source) are
  modelled as `Nat`; all permission values that arise in the source satisfy
  `bits &&& ALL = bits` where `ALL` is the mask of flags defined by
  `Permissions::all()`, which we keep as an explicit parameter.
* The HTTP collaborator is modelled by an `Outcome` oracle per operation:
  `.ok msgId` stands for a successful call (carrying the id of the message
  the platform returned, where one is returned), `.fail` stands for any
  failing step of the request (builder validation or transport), which the
  source propagates with `?` before any state mutation.
* Network calls issued by an operation are recorded in a `List Call` so that
  "no network call is made" is observable.
-/

namespace Sparkle

/-- Permission bitflag sets are raw `u64` bit masks in the source
(`twilight_model::guild::Permissions`). -/
abbrev Perms := Nat

/-- Bitwise difference `self.bits & !other.bits`: the `Sub` implementation of
the `bitflags` crate, used by `required_permissions - self.app_permissions`
in `InteractionHandle::check_permissions`. -/
def permsDiff (r a : Perms) : Perms :=
  Nat.bitwise (fun x y => x && !y) r a

/-- The deprecated `UserError` enum of src/src/error.rs, returned by
`InteractionHandle::check_permissions`. -/
inductive UserError where
  | missingPermissions (missing : Option Perms)
  | ignore
  deriving DecidableEq, Repr

/-- Source: `InteractionHandle::check_permissions` (src/src/interaction.rs
lines 115-122). -/
def checkPermissions (required appPermissions : Perms) : Except UserError Unit :=
  let missingPermissions := permsDiff required appPermissions
  if missingPermissions ≠ 0 then
    Except.error (UserError.missingPermissions (some missingPermissions))
  else
    Except.ok ()

/-- Source: `interaction.app_permissions.unwrap_or(Permissions::all())` in
`Bot::interaction_handle` (src/src/interaction.rs line 91). `all` is the
mask of all defined permission bits. -/
def appPermissionsOf (all : Perms) (eventPermissions : Option Perms) : Perms :=
  eventPermissions.getD all

/-- Bits of `permsDiff` in terms of its arguments. -/
theorem permsDiff_testBit (r a : Perms) (i : Nat) :
    (permsDiff r a).testBit i = (r.testBit i && !(a.testBit i)) := by
  unfold permsDiff
  rcases Nat.eq_zero_or_pos r with hr | hr
  · subst hr
    simp [Nat.bitwise]
  · exact Nat.testBit_bitwise (by simp) r a i

/-- If every bit of `r` lies inside the mask `a`, the bitwise difference is
empty. -/
theorem permsDiff_eq_zero (r a : Perms) (h : r &&& a = r) :
    permsDiff r a = 0 := by
  apply Nat.eq_of_testBit_eq
  intro i
  rw [permsDiff_testBit]
  simp only [Nat.zero_testBit]
  have hbit : (r &&& a).testBit i = r.testBit i := by rw [h]
  rw [Nat.testBit_land] at hbit
  cases hr : r.testBit i
  · simp
  · rw [hr] at hbit
    simp only [Bool.true_and] at hbit
    simp [hbit]

/-!
Error classifier: src/src/error/http_error.rs and
`CombinedUserError` in src/src/error.rs.
-/

/-- The `ApiError` shapes of the platform SDK relevant to classification:
`ApiError::General(GeneralApiError { code, .. })` carries the numeric
platform error code; every other shape carries none. -/
inductive ApiError where
  | general (code : Nat)
  | otherApi
  deriving DecidableEq, Repr

/-- The `ErrorType` of `twilight_http::Error`: only the
`ErrorType::Response { error: ApiError, .. }` shape exposes an `ApiError`;
all other shapes (request building, timeouts, ...) are collapsed into
`otherKind` since the source treats them uniformly. -/
inductive HttpErrorKind where
  | response (error : ApiError)
  | otherKind
  deriving DecidableEq, Repr

/-- A platform HTTP error (`twilight_http::Error`), reduced to the data the
classifier reads through `err.kind()`. -/
structure TwilightHttpError where
  kind : HttpErrorKind
  deriving DecidableEq, Repr

/-- Source: `HttpErrorExt::code` (src/src/error/extract.rs lines 29-39). -/
def TwilightHttpError.code (err : TwilightHttpError) : Option Nat :=
  match err.kind with
  | HttpErrorKind.response (ApiError.general c) => some c
  | _ => none

/-- The private `http_error::Error` enum (src/src/error/http_error.rs
lines 6-13). -/
inductive HttpError where
  | failedDm
  | missingAccess
  | missingPermissions
  | reactionBlocked
  | unknown
  | unknownMessage
  deriving DecidableEq, Repr

/-- Source: `http_error::Error::from_http_err` (src/src/error/http_error.rs
lines 16-35). The Rust integer `match` is rendered as an if-chain. -/
def HttpError.from_http_err (err : TwilightHttpError) : HttpError :=
  match err.kind with
  | HttpErrorKind.response (ApiError.general code) =>
    if code = 10008 then HttpError.unknownMessage
    else if code = 50001 then HttpError.missingAccess
    else if code = 50007 then HttpError.failedDm
    else if code = 50013 then HttpError.missingPermissions
    else if code = 90001 then HttpError.reactionBlocked
    else HttpError.unknown
  | _ => HttpError.unknown

/-- The `CombinedUserError<C>` enum (src/src/error.rs lines 101-119), the
classification produced by the error classifier. -/
inductive CombinedUserError (C : Type) where
  | missingPermissions (perms : Option Perms)
  | custom (err : C)
  | internal
  | ignore
  deriving DecidableEq, Repr

/-- Source: `CombinedUserError::from_http_err` (src/src/error.rs
lines 159-169). -/
def CombinedUserError.from_http_err (C : Type) (httpErr : TwilightHttpError) :
    CombinedUserError C :=
  match HttpError.from_http_err httpErr with
  | HttpError.unknownMessage | HttpError.failedDm | HttpError.reactionBlocked =>
    CombinedUserError.ignore
  | HttpError.missingPermissions | HttpError.missingAccess =>
    CombinedUserError.missingPermissions none
  | HttpError.unknown => CombinedUserError.internal

/-- Source: `CombinedUserError::with_permissions` (src/src/error.rs
lines 175-181). -/
def CombinedUserError.with_permissions (c : CombinedUserError C)
    (permissions : Perms) : CombinedUserError C :=
  if let CombinedUserError.missingPermissions _ := c then
    CombinedUserError.missingPermissions (some permissions)
  else
    c

/-- An `anyhow::Error` value as seen by `from_anyhow_err`, as a tagged union
over the dynamic type of the wrapped error. The three downcast targets of the
source — `CombinedUserError<C>` itself, the custom type `C`, and
`twilight_http::Error` — are pairwise distinct Rust types (`C` is `Clone`,
which `twilight_http::Error` is not, and no type equals `CombinedUserError`
of itself), so a value downcasts to exactly one of them, which the tag
records; `other` is every remaining dynamic type. This follows the
tagged-union modelling the design notes prescribe for the generic
custom-error parameter. -/
inductive AnyhowErr (C : Type) where
  | classified (err : CombinedUserError C)
  | customErr (err : C)
  | httpErr (err : TwilightHttpError)
  | other
  deriving DecidableEq, Repr

/-- Source: `CombinedUserError::from_anyhow_err` (src/src/error.rs
lines 135-149): downcast to `Self`, then to `C`, then to
`twilight_http::Error`, else `Internal`. -/
def CombinedUserError.from_anyhow_err (err : AnyhowErr C) :
    CombinedUserError C :=
  match err with
  | AnyhowErr.classified userErr => userErr
  | AnyhowErr.customErr customErr => CombinedUserError.custom customErr
  | AnyhowErr.httpErr httpErr => CombinedUserError.from_http_err C httpErr
  | AnyhowErr.other => CombinedUserError.internal

/-- The spec's code table (spec section 4.1), written from the spec's words:
`code_table(numeric_code) -> Option<KnownCondition>` rendered directly as a
partial map from codes to classifications. -/
def specCodeTable (C : Type) (code : Nat) : Option (CombinedUserError C) :=
  if code = 10008 then some CombinedUserError.ignore
  else if code = 50001 then some (CombinedUserError.missingPermissions none)
  else if code = 50007 then some CombinedUserError.ignore
  else if code = 50013 then some (CombinedUserError.missingPermissions none)
  else if code = 90001 then some CombinedUserError.ignore
  else none

/-- Modelled from the spec (section 4.1 "Inputs/contract"): the classifier
with the spec's stated check priority — idempotent passthrough first, then
the platform code table, then the custom-domain match, then `Internal`.
Written to compare with the source's `from_anyhow_err`. -/
def specClassify (err : AnyhowErr C) : CombinedUserError C :=
  match err with
  | AnyhowErr.classified userErr => userErr
  | AnyhowErr.httpErr httpErr =>
    match httpErr.code with
    | some code => (specCodeTable C code).getD CombinedUserError.internal
    | none => CombinedUserError.internal
  | AnyhowErr.customErr customErr => CombinedUserError.custom customErr
  | AnyhowErr.other => CombinedUserError.internal

/-!
Interaction response tracker: `InteractionHandle` in src/src/interaction.rs.
-/

/-- Source: `DeferVisibility` (src/src/interaction.rs lines 41-46). It only
shapes the flags of the defer payload, never the control flow. -/
inductive DeferVisibility where
  | ephemeral
  | visible
  deriving DecidableEq, Repr

/-- Source: `DeferBehavior` (src/src/interaction.rs lines 51-56). -/
inductive DeferBehavior where
  | followup
  | update
  deriving DecidableEq, Repr

/-- The `InteractionType` of the platform SDK, stored as the handle's
immutable `kind` field. -/
inductive InteractionType where
  | ping
  | applicationCommand
  | messageComponent
  | applicationCommandAutocomplete
  | modalSubmit
  deriving DecidableEq, Repr

/-- The `InteractionResponseType` constants sent over the wire. -/
inductive ResponseKind where
  | channelMessageWithSource
  | deferredChannelMessageWithSource
  | deferredUpdateMessage
  | updateMessage
  | applicationCommandAutocompleteResult
  | modal
  deriving DecidableEq, Repr

/-- A network call to the HTTP collaborator: `create_response(kind)`,
`create_followup` or `update_response` on the interaction client. -/
inductive Call where
  | createResponse (kind : ResponseKind)
  | createFollowup
  | updateResponse
  deriving DecidableEq, Repr

/-- Tracker errors (the `Error` enum of src/src/error.rs restricted to what
the embedded operations produce): `AlreadyResponded`, or any failure
propagated with `?` from a collaborator request — `Http`,
`RequestValidation`, `DeserializeBody` — collapsed into `http` since the
tracker treats them all as an early return before any state mutation. -/
inductive TrackerError where
  | alreadyResponded
  | http
  deriving DecidableEq, Repr

/-- Outcome oracle for one collaborator request: `.ok msgId` is success
(with the returned message's id where the call returns a message), `.fail`
is any failing step of the request. -/
inductive Outcome where
  | ok (msgId : Nat)
  | fail
  deriving DecidableEq, Repr

/-- The mutable state of an `InteractionHandle`: the `responded` flag and
`last_message_id` (`0` encodes `None`, as in the source, lines 74-79). -/
structure HandleState where
  responded : Bool
  lastMessageId : Nat
  deriving DecidableEq, Repr

/-- State of a handle fresh from `Bot::interaction_handle`
(src/src/interaction.rs lines 92-93). -/
def freshState : HandleState := { responded := false, lastMessageId := 0 }

/-- Source: the private `last_message_id` getter (src/src/interaction.rs
lines 505-512): `0` decodes to `None`. -/
def HandleState.lastMessageIdOpt (st : HandleState) : Option Nat :=
  if st.lastMessageId = 0 then none else some st.lastMessageId

/-- The fields of `Reply` (src/src/reply.rs) that are data rather than
pass-through payload shaping: the embedded operations receive the whole
struct, mirroring the source signatures. -/
structure ReplyData where
  content : String
  update_last : Bool
  deriving DecidableEq, Repr

/-- Source: `InteractionHandle::defer_with_behavior` (src/src/interaction.rs
lines 198-235). Returns the calls issued, the result, and the new state.
`visibility` only selects the `EPHEMERAL` flag of the payload, so it does
not appear on the right-hand side. -/
def deferWithBehavior (ik : InteractionType) (visibility : DeferVisibility)
    (behavior : DeferBehavior) (st : HandleState) (outcome : Outcome) :
    List Call × Except TrackerError Unit × HandleState :=
  if st.responded then
    ([], Except.error TrackerError.alreadyResponded, st)
  else
    let kind :=
      if ik = InteractionType.messageComponent then
        match behavior with
        | DeferBehavior.followup => ResponseKind.deferredChannelMessageWithSource
        | DeferBehavior.update => ResponseKind.deferredUpdateMessage
      else
        ResponseKind.deferredChannelMessageWithSource
    match outcome with
    | Outcome.ok _ =>
      ([Call.createResponse kind], Except.ok (), { st with responded := true })
    | Outcome.fail =>
      ([Call.createResponse kind], Except.error TrackerError.http, st)

/-- Source: `InteractionHandle::reply` (src/src/interaction.rs
lines 295-327). On the responded path the source builds and awaits a
`create_followup` request and wraps the response in `Some`; on the
not-responded path it sends a `ChannelMessageWithSource` initial response,
sets `responded` and returns `None`. The `reply` argument, including its
`update_last` flag, never influences the routing, and `last_message_id` is
never read or written. -/
def replyRun (reply : ReplyData) (st : HandleState) (outcome : Outcome) :
    List Call × Except TrackerError (Option Nat) × HandleState :=
  if st.responded then
    match outcome with
    | Outcome.ok msgId => ([Call.createFollowup], Except.ok (some msgId), st)
    | Outcome.fail => ([Call.createFollowup], Except.error TrackerError.http, st)
  else
    match outcome with
    | Outcome.ok _ =>
      ([Call.createResponse ResponseKind.channelMessageWithSource],
        Except.ok none, { st with responded := true })
    | Outcome.fail =>
      ([Call.createResponse ResponseKind.channelMessageWithSource],
        Except.error TrackerError.http, st)

/-- Source: `InteractionHandle::update_message` (src/src/interaction.rs
lines 350-377). On the responded path it builds and awaits
`update_response` (the original interaction response) and wraps the result
in `Some`; otherwise it sends an `UpdateMessage` initial response. -/
def updateMessageRun (reply : ReplyData) (st : HandleState) (outcome : Outcome) :
    List Call × Except TrackerError (Option Nat) × HandleState :=
  if st.responded then
    match outcome with
    | Outcome.ok msgId => ([Call.updateResponse], Except.ok (some msgId), st)
    | Outcome.fail => ([Call.updateResponse], Except.error TrackerError.http, st)
  else
    match outcome with
    | Outcome.ok _ =>
      ([Call.createResponse ResponseKind.updateMessage],
        Except.ok none, { st with responded := true })
    | Outcome.fail =>
      ([Call.createResponse ResponseKind.updateMessage],
        Except.error TrackerError.http, st)

/-- Source: `InteractionHandle::autocomplete` (src/src/interaction.rs
lines 387-418): early `AlreadyResponded` return before any request is
built, else an `ApplicationCommandAutocompleteResult` response. -/
def autocompleteRun (st : HandleState) (outcome : Outcome) :
    List Call × Except TrackerError Unit × HandleState :=
  if st.responded then
    ([], Except.error TrackerError.alreadyResponded, st)
  else
    match outcome with
    | Outcome.ok _ =>
      ([Call.createResponse ResponseKind.applicationCommandAutocompleteResult],
        Except.ok (), { st with responded := true })
    | Outcome.fail =>
      ([Call.createResponse ResponseKind.applicationCommandAutocompleteResult],
        Except.error TrackerError.http, st)

/-- Source: `InteractionHandle::modal` (src/src/interaction.rs
lines 428-475): early `AlreadyResponded` return before any request is
built, else a `Modal` response. -/
def modalRun (st : HandleState) (outcome : Outcome) :
    List Call × Except TrackerError Unit × HandleState :=
  if st.responded then
    ([], Except.error TrackerError.alreadyResponded, st)
  else
    match outcome with
    | Outcome.ok _ =>
      ([Call.createResponse ResponseKind.modal],
        Except.ok (), { st with responded := true })
    | Outcome.fail =>
      ([Call.createResponse ResponseKind.modal],
        Except.error TrackerError.http, st)

/-- One operation of the tracker's public surface named by the spec's state
machine. -/
inductive Op where
  | deferOp (visibility : DeferVisibility) (behavior : DeferBehavior)
  | replyOp (reply : ReplyData)
  | autocompleteOp
  | modalOp
  deriving DecidableEq, Repr

/-- Run one operation, with the unit-returning operations coerced to the
common `Option Nat` result type. -/
def runOp (ik : InteractionType) (op : Op) (outcome : Outcome)
    (st : HandleState) :
    List Call × Except TrackerError (Option Nat) × HandleState :=
  match op with
  | Op.deferOp visibility behavior =>
    let res := deferWithBehavior ik visibility behavior st outcome
    (res.1, res.2.1.map fun _ => none, res.2.2)
  | Op.replyOp reply => replyRun reply st outcome
  | Op.autocompleteOp =>
    let res := autocompleteRun st outcome
    (res.1, res.2.1.map fun _ => none, res.2.2)
  | Op.modalOp =>
    let res := modalRun st outcome
    (res.1, res.2.1.map fun _ => none, res.2.2)

/-- Whether an operation result is a success. -/
def isOkResult (res : Except TrackerError (Option Nat)) : Bool :=
  match res with
  | Except.ok _ => true
  | Except.error _ => false

/-- Default step used with `List.getD` when an index is out of range; it
always fails, so it can never witness a success. -/
def defaultStep : Op × Outcome := (Op.autocompleteOp, Outcome.fail)

/-- Handle state before step `n` of a call sequence that starts on a fresh
handle. -/
def stateAt (ik : InteractionType) (steps : List (Op × Outcome)) (n : Nat) :
    HandleState :=
  (steps.take n).foldl (fun st step => (runOp ik step.1 step.2 st).2.2) freshState

/-- Calls issued and result returned by step `n` of a call sequence that
starts on a fresh handle. -/
def outAt (ik : InteractionType) (steps : List (Op × Outcome)) (n : Nat) :
    List Call × Except TrackerError (Option Nat) :=
  let step := steps.getD n defaultStep
  let res := runOp ik step.1 step.2 (stateAt ik steps n)
  (res.1, res.2.1)

/-!
Interleaving model of two concurrent `reply` calls sharing one handle.

The source guards the decision with `self.responded.load(Ordering::Acquire)`
(line 498) at the top of `reply` and performs
`self.responded.store(true, Ordering::Release)` (line 502) only after the
awaited collaborator call returns, so each `reply` touches the shared flag
in two separate atomic steps: the load, and then (on the initial-response
branch) the network send followed by the store. The model gives each task
those two steps and lets a schedule interleave them; collaborator calls are
assumed to succeed, which is the interesting case for the race.
-/

/-- Which kind of response a modelled concurrent `reply` call sent. -/
inductive SendKind where
  | initialResponse
  | followup
  deriving DecidableEq, Repr

/-- One task running `reply`: `loaded` is the value its Acquire load of
`responded` returned (`none` before the load), `sent` the responses it has
sent. -/
structure ReplyTask where
  loaded : Option Bool
  sent : List SendKind
  deriving DecidableEq, Repr

/-- A task is finished once it has loaded the flag and sent its response. -/
def taskFinished (t : ReplyTask) : Bool :=
  t.loaded.isSome && !t.sent.isEmpty

/-- Advance one task by one atomic step against the shared `responded` flag,
returning the new flag and task. The load step records the flag; the second
step sends the initial response and stores `true` when the load saw
`false`, and sends a followup (no store) when it saw `true` — exactly the
two branches of `reply`. -/
def taskStep (shared : Bool) (t : ReplyTask) : Bool × ReplyTask :=
  match t.loaded with
  | none => (shared, { t with loaded := some shared })
  | some true => (shared, { t with sent := t.sent ++ [SendKind.followup] })
  | some false => (true, { t with sent := t.sent ++ [SendKind.initialResponse] })

/-- The shared flag and the two tasks. -/
structure ConcSys where
  shared : Bool
  taskA : ReplyTask
  taskB : ReplyTask
  deriving DecidableEq, Repr

/-- Scheduler step: `false` steps task A, `true` steps task B; a finished
task is left untouched. -/
def sysStep (s : ConcSys) (pickB : Bool) : ConcSys :=
  match pickB with
  | true =>
    if taskFinished s.taskB then s
    else
      let res := taskStep s.shared s.taskB
      { s with shared := res.1, taskB := res.2 }
  | false =>
    if taskFinished s.taskA then s
    else
      let res := taskStep s.shared s.taskA
      { s with shared := res.1, taskA := res.2 }

/-- Run a schedule from an initial system state. -/
def runSched (s : ConcSys) (sched : List Bool) : ConcSys :=
  sched.foldl sysStep s

/-- Both tasks about to run `reply` on a fresh handle. -/
def concInit : ConcSys :=
  { shared := false
    taskA := { loaded := none, sent := [] }
    taskB := { loaded := none, sent := [] } }

/-!
Claim theorems: error classifier.
-/

/-- Claim C3: `from_anyhow_err` classifies every input as the spec's priority
order dictates — an already-classified value is returned unchanged, then a
platform HTTP error is classified by the code table, then a custom-domain
value yields `Custom`, and everything else yields `Internal`. The source
checks the custom downcast before the HTTP downcast, but the downcast
targets are disjoint dynamic types, so the resulting classification equals
the spec-ordered classifier on every input. -/
theorem from_anyhow_err_matches_spec_priority (C : Type) (err : AnyhowErr C) :
    CombinedUserError.from_anyhow_err err = specClassify err := by
  cases err with
  | classified userErr => rfl
  | customErr customErr => rfl
  | other => rfl
  | httpErr httpErr =>
    cases httpErr with
    | mk kind =>
      cases kind with
      | otherKind => rfl
      | response api =>
        cases api with
        | otherApi => rfl
        | general code =>
          simp only [CombinedUserError.from_anyhow_err, specClassify,
            CombinedUserError.from_http_err, HttpError.from_http_err,
            TwilightHttpError.code, specCodeTable]
          split_ifs <;> rfl

/-- Claim C4: the code table is exact and total — 10008, 50007 and 90001 classify
as `Ignore`; 50001 and 50013 as `MissingPermissions(None)`; any other code,
and any error shape carrying no code, classifies as `Internal`. -/
theorem from_http_err_code_table (C : Type) (code : Nat)
    (err : TwilightHttpError) :
    CombinedUserError.from_http_err C
        ⟨HttpErrorKind.response (ApiError.general 10008)⟩ =
      CombinedUserError.ignore ∧
    CombinedUserError.from_http_err C
        ⟨HttpErrorKind.response (ApiError.general 50007)⟩ =
      CombinedUserError.ignore ∧
    CombinedUserError.from_http_err C
        ⟨HttpErrorKind.response (ApiError.general 90001)⟩ =
      CombinedUserError.ignore ∧
    CombinedUserError.from_http_err C
        ⟨HttpErrorKind.response (ApiError.general 50001)⟩ =
      CombinedUserError.missingPermissions none ∧
    CombinedUserError.from_http_err C
        ⟨HttpErrorKind.response (ApiError.general 50013)⟩ =
      CombinedUserError.missingPermissions none ∧
    (code ≠ 10008 → code ≠ 50001 → code ≠ 50007 → code ≠ 50013 →
      code ≠ 90001 →
      CombinedUserError.from_http_err C
          ⟨HttpErrorKind.response (ApiError.general code)⟩ =
        CombinedUserError.internal) ∧
    (err.code = none →
      CombinedUserError.from_http_err C err = CombinedUserError.internal) := by
  refine ⟨rfl, rfl, rfl, rfl, rfl, ?_, ?_⟩
  · intro h1 h2 h3 h4 h5
    simp only [CombinedUserError.from_http_err, HttpError.from_http_err]
    rw [if_neg h1, if_neg h2, if_neg h3, if_neg h4, if_neg h5]
  · intro hcode
    cases err with
    | mk kind =>
      cases kind with
      | otherKind => rfl
      | response api =>
        cases api with
        | otherApi => rfl
        | general c => simp [TwilightHttpError.code] at hcode

/-- Witness for C4 at concrete inputs: code 40001 (absent from the table)
and an error shape without a code both classify as `Internal`. -/
theorem from_http_err_code_table_witness :
    CombinedUserError.from_http_err Unit
        ⟨HttpErrorKind.response (ApiError.general 40001)⟩ =
      CombinedUserError.internal ∧
    CombinedUserError.from_http_err Unit ⟨HttpErrorKind.otherKind⟩ =
      CombinedUserError.internal :=
  ⟨(from_http_err_code_table Unit 40001 ⟨HttpErrorKind.otherKind⟩).2.2.2.2.2.1
      (by decide) (by decide) (by decide) (by decide) (by decide),
    (from_http_err_code_table Unit 40001 ⟨HttpErrorKind.otherKind⟩).2.2.2.2.2.2
      rfl⟩

/-- Claim C7: `with_permissions` maps every `MissingPermissions(x)` to
`MissingPermissions(Some(P))` and leaves the `Custom`, `Internal` and
`Ignore` classifications unchanged. -/
theorem with_permissions_laws (C : Type) (u : C) (x : Option Perms)
    (P : Perms) :
    CombinedUserError.with_permissions
        (CombinedUserError.missingPermissions (C := C) x) P =
      CombinedUserError.missingPermissions (some P) ∧
    CombinedUserError.with_permissions (CombinedUserError.custom u) P =
      CombinedUserError.custom u ∧
    CombinedUserError.with_permissions (CombinedUserError.internal (C := C)) P =
      CombinedUserError.internal ∧
    CombinedUserError.with_permissions (CombinedUserError.ignore (C := C)) P =
      CombinedUserError.ignore :=
  ⟨rfl, rfl, rfl, rfl⟩

/-- Claim C8: classification is idempotent — wrapping the classification produced
for any error back into an error and classifying again returns the same
classification. -/
theorem classification_idempotent (C : Type) (err : AnyhowErr C) :
    CombinedUserError.from_anyhow_err
        (AnyhowErr.classified (CombinedUserError.from_anyhow_err err)) =
      CombinedUserError.from_anyhow_err err :=
  rfl

/-- Claim C6: `check_permissions` is the pure set difference
`required - appPermissions` — it fails carrying exactly the missing bits
when the difference is non-empty, succeeds when it is empty, and always
succeeds on a handle built from an event with absent app permissions, whose
`appPermissions` is the all-permissions sentinel. -/
theorem check_permissions_correct (all r a : Perms) :
    (permsDiff r a ≠ 0 →
      checkPermissions r a =
        Except.error (UserError.missingPermissions (some (permsDiff r a)))) ∧
    (permsDiff r a = 0 → checkPermissions r a = Except.ok ()) ∧
    (r &&& all = r →
      checkPermissions r (appPermissionsOf all none) = Except.ok ()) := by
  refine ⟨?_, ?_, ?_⟩
  · intro h
    simp [checkPermissions, h]
  · intro h
    simp [checkPermissions, h]
  · intro h
    have hz := permsDiff_eq_zero r all h
    simp [checkPermissions, appPermissionsOf, hz]

/-- Witness for C6 at concrete inputs: `required = 5`, `appPermissions = 1`
misses exactly bit mask `4`; with the DM sentinel (`all = 7`, absent event
permissions) the check succeeds. -/
theorem check_permissions_correct_witness :
    checkPermissions 5 1 =
      Except.error (UserError.missingPermissions (some 4)) ∧
    checkPermissions 5 (appPermissionsOf 7 none) = Except.ok () := by
  have hdiff : permsDiff 5 1 = 4 := by simp [permsDiff, Nat.bitwise]
  refine ⟨?_, (check_permissions_correct 7 5 1).2.2 (by decide)⟩
  have hne : permsDiff 5 1 ≠ 0 := by rw [hdiff]; decide
  have := (check_permissions_correct 7 5 1).1 hne
  rwa [hdiff] at this

/-!
Claim theorems: interaction tracker.
-/

/-- Claim C10: on a handle already in the responded state, `update_message`
always issues exactly the update-original-response collaborator call —
never a followup call — returns `Some(message)` on success, and neither
consults nor updates `lastMessageId` (the state, including any
`lastMessageId` left by earlier followups, is returned untouched). -/
theorem update_message_targets_original (l m : Nat) (reply : ReplyData) :
    updateMessageRun reply { responded := true, lastMessageId := l }
        (Outcome.ok m) =
      ([Call.updateResponse], Except.ok (some m),
        { responded := true, lastMessageId := l }) ∧
    updateMessageRun reply { responded := true, lastMessageId := l }
        Outcome.fail =
      ([Call.updateResponse], Except.error TrackerError.http,
        { responded := true, lastMessageId := l }) :=
  ⟨rfl, rfl⟩

/-- Claim C5: when the collaborator call fails, every operation returns the error
and leaves the handle state — both `responded` and `lastMessageId` —
exactly as it was, so the `NotResponded → Responded` transition never
happens on failure and mutation only follows collaborator success. -/
theorem no_mutation_on_collaborator_failure (ik : InteractionType)
    (visibility : DeferVisibility) (behavior : DeferBehavior)
    (reply : ReplyData) (st : HandleState) :
    (deferWithBehavior ik visibility behavior st Outcome.fail).2.2 = st ∧
    (deferWithBehavior ik visibility behavior st Outcome.fail).2.1 =
      Except.error
        (if st.responded then TrackerError.alreadyResponded
         else TrackerError.http) ∧
    (replyRun reply st Outcome.fail).2.2 = st ∧
    (replyRun reply st Outcome.fail).2.1 = Except.error TrackerError.http ∧
    (autocompleteRun st Outcome.fail).2.2 = st ∧
    (autocompleteRun st Outcome.fail).2.1 =
      Except.error
        (if st.responded then TrackerError.alreadyResponded
         else TrackerError.http) ∧
    (modalRun st Outcome.fail).2.2 = st ∧
    (modalRun st Outcome.fail).2.1 =
      Except.error
        (if st.responded then TrackerError.alreadyResponded
         else TrackerError.http) := by
  cases hr : st.responded <;>
    simp [deferWithBehavior, replyRun, autocompleteRun, modalRun, hr]

/-- Claim C2 (failing input): on a responded handle with no followup recorded
(`lastMessageId = 0`) and a reply whose `update_last` flag is set, the code
issues a followup-creation call and leaves `lastMessageId` unset, instead
of updating the original response and recording the message id: `reply`
never reads `update_last` and never writes `last_message_id`, contradicting
the documentation of `Reply::update_last` (src/src/reply.rs lines 212-216)
and leaving the `last_message_id` accessors (src/src/interaction.rs lines
505-516) dead. -/
theorem reply_ignores_update_last_at_failing_input :
    replyRun { content := "new content", update_last := true }
        { responded := true, lastMessageId := 0 } (Outcome.ok 5) =
      ([Call.createFollowup], Except.ok (some 5),
        { responded := true, lastMessageId := 0 }) ∧
    HandleState.lastMessageIdOpt { responded := true, lastMessageId := 0 } =
      none :=
  ⟨rfl, rfl⟩

/-- Claim C9 (counterexample): under the schedule that lets both tasks perform
their Acquire load of `responded` before either performs its Release
store, both concurrent `reply` calls send the initial response — the
check and the conditional set are not one atomic transaction. -/
theorem concurrent_reply_double_initial :
    (runSched concInit [false, true, false, true]).taskA.sent =
      [SendKind.initialResponse] ∧
    (runSched concInit [false, true, false, true]).taskB.sent =
      [SendKind.initialResponse] :=
  ⟨rfl, rfl⟩

/-- The shared `responded` flag is monotone: no step ever resets it. -/
theorem taskStep_shared_monotone (t : ReplyTask) : (taskStep true t).1 = true := by
  cases t with
  | mk loaded sent =>
    cases loaded with
    | none => rfl
    | some b => cases b <;> rfl

/-- Invariant carried along any schedule after one `reply` has completed:
the shared flag stays set, and the other task never loads `false`, hence
never sends an initial response. -/
theorem sysStep_taskB_no_initial (s : ConcSys) (pick : Bool)
    (h1 : s.shared = true) (h2 : s.taskB.loaded ≠ some false)
    (h3 : SendKind.initialResponse ∉ s.taskB.sent) :
    (sysStep s pick).shared = true ∧
    (sysStep s pick).taskB.loaded ≠ some false ∧
    SendKind.initialResponse ∉ (sysStep s pick).taskB.sent := by
  cases pick
  · simp only [sysStep]
    by_cases hfin : taskFinished s.taskA = true
    · rw [if_pos hfin]
      exact ⟨h1, h2, h3⟩
    · rw [if_neg hfin]
      rw [h1]
      exact ⟨taskStep_shared_monotone s.taskA, h2, h3⟩
  · simp only [sysStep]
    by_cases hfin : taskFinished s.taskB = true
    · rw [if_pos hfin]
      exact ⟨h1, h2, h3⟩
    · rw [if_neg hfin]
      rw [h1]
      cases hload : s.taskB.loaded with
      | none => simp [taskStep, hload, h3]
      | some b =>
        cases b
        · exact absurd hload h2
        · simp [taskStep, hload, h3]

/-- The invariant of `sysStep_taskB_no_initial` holds along any schedule. -/
theorem runSched_taskB_no_initial (sched : List Bool) (s : ConcSys)
    (h1 : s.shared = true) (h2 : s.taskB.loaded ≠ some false)
    (h3 : SendKind.initialResponse ∉ s.taskB.sent) :
    SendKind.initialResponse ∉ (runSched s sched).taskB.sent := by
  induction sched generalizing s with
  | nil => exact h3
  | cons pick rest ih =>
    obtain ⟨k1, k2, k3⟩ := sysStep_taskB_no_initial s pick h1 h2 h3
    exact ih (sysStep s pick) k1 k2 k3

/-- Claim C9 (amended): the `responded` check and its conditional set are
separate atomic steps, so overlapping `reply` calls can both send the
initial response; but when one `reply` call runs to completion before the
other starts, the first sends the initial response and the second —
whatever the remaining schedule — never sends an initial response. -/
theorem sequential_reply_single_initial (sched : List Bool) :
    (runSched concInit [false, false]).taskA.sent =
      [SendKind.initialResponse] ∧
    SendKind.initialResponse ∉
      (runSched (runSched concInit [false, false]) sched).taskB.sent := by
  refine ⟨rfl, ?_⟩
  exact runSched_taskB_no_initial sched (runSched concInit [false, false])
    rfl (by simp [runSched, concInit, sysStep, taskStep, taskFinished])
    (by simp [runSched, concInit, sysStep, taskStep, taskFinished])

/-- Every operation leaves a set `responded` flag set. -/
theorem runOp_responded_mono (ik : InteractionType) (op : Op) (oc : Outcome)
    (st : HandleState) (h : st.responded = true) :
    (runOp ik op oc st).2.2.responded = true := by
  cases op <;> cases oc <;>
    simp [runOp, deferWithBehavior, replyRun, autocompleteRun, modalRun, h]

/-- A successful operation always leaves the `responded` flag set. -/
theorem runOp_ok_responded (ik : InteractionType) (op : Op) (oc : Outcome)
    (st : HandleState)
    (h : isOkResult (runOp ik op oc st).2.1 = true) :
    (runOp ik op oc st).2.2.responded = true := by
  cases hr : st.responded
  · cases op <;> cases oc <;>
      simp_all [runOp, deferWithBehavior, replyRun, autocompleteRun, modalRun,
        isOkResult, Except.map]
  · exact runOp_responded_mono ik op oc st hr

/-- The `responded` flag stays set along any tail of a call sequence. -/
theorem foldl_runOp_responded_mono (ik : InteractionType)
    (l : List (Op × Outcome)) (st : HandleState) (h : st.responded = true) :
    (l.foldl (fun acc step => (runOp ik step.1 step.2 acc).2.2) st).responded =
      true := by
  induction l generalizing st with
  | nil => exact h
  | cons hd tl ih => exact ih _ (runOp_responded_mono ik hd.1 hd.2 st h)

/-- The `responded` flag is monotone along the states of a call sequence. -/
theorem stateAt_responded_mono (ik : InteractionType)
    (steps : List (Op × Outcome)) (n m : Nat) (hnm : n ≤ m)
    (h : (stateAt ik steps n).responded = true) :
    (stateAt ik steps m).responded = true := by
  have hm : m = n + (m - n) := (Nat.add_sub_cancel' hnm).symm
  rw [hm]
  unfold stateAt at h ⊢
  rw [List.take_add, List.foldl_append]
  exact foldl_runOp_responded_mono ik _ _ h

/-- Unrolling one in-range step of a call sequence. -/
theorem stateAt_succ_eq (ik : InteractionType) (steps : List (Op × Outcome))
    (i : Nat) (hi : i < steps.length) :
    stateAt ik steps (i + 1) =
      (runOp ik (steps.getD i defaultStep).1 (steps.getD i defaultStep).2
        (stateAt ik steps i)).2.2 := by
  unfold stateAt
  rw [List.take_succ, List.foldl_append]
  simp [List.getD_eq_getElem?_getD, List.getElem?_eq_getElem hi]

/-- After a successful step, the state before the next step has `responded`
set. -/
theorem stateAt_succ_of_ok (ik : InteractionType)
    (steps : List (Op × Outcome)) (i : Nat)
    (hok : isOkResult (outAt ik steps i).2 = true) :
    (stateAt ik steps (i + 1)).responded = true := by
  by_cases hi : i < steps.length
  · rw [stateAt_succ_eq ik steps i hi]
    exact runOp_ok_responded ik _ _ _ hok
  · have hd : steps.getD i defaultStep = defaultStep :=
      List.getD_eq_default _ _ (Nat.le_of_not_lt hi)
    have hfalse : isOkResult (outAt ik steps i).2 = false := by
      unfold outAt
      rw [hd]
      cases hr : (stateAt ik steps i).responded <;>
        simp [runOp, autocompleteRun, defaultStep, isOkResult, hr, Except.map]
    rw [hfalse] at hok
    exact absurd hok (by decide)

/-- Claim C1: on one handle, after any call in a `defer`/`reply`/`autocomplete`/
`modal` sequence succeeds, every later `autocomplete` or `modal` call
returns `AlreadyResponded` without issuing any network call, and every
later `reply` call issues exactly a followup-creation call, never an
initial interaction response. -/
theorem state_monotonicity_after_success (ik : InteractionType)
    (steps : List (Op × Outcome)) (i j : Nat) (hij : i < j)
    (hok : isOkResult (outAt ik steps i).2 = true) :
    ((steps.getD j defaultStep).1 = Op.autocompleteOp →
      outAt ik steps j =
        ([], Except.error TrackerError.alreadyResponded)) ∧
    ((steps.getD j defaultStep).1 = Op.modalOp →
      outAt ik steps j =
        ([], Except.error TrackerError.alreadyResponded)) ∧
    (∀ r, (steps.getD j defaultStep).1 = Op.replyOp r →
      (outAt ik steps j).1 = [Call.createFollowup]) := by
  have hrespj : (stateAt ik steps j).responded = true :=
    stateAt_responded_mono ik steps (i + 1) j hij
      (stateAt_succ_of_ok ik steps i hok)
  rcases hstep : steps.getD j defaultStep with ⟨op, oc⟩
  refine ⟨?_, ?_, ?_⟩
  · intro hop
    have hop2 : op = Op.autocompleteOp := hop
    subst hop2
    simp only [outAt, hstep]
    simp [runOp, autocompleteRun, hrespj, Except.map]
  · intro hop
    have hop2 : op = Op.modalOp := hop
    subst hop2
    simp only [outAt, hstep]
    simp [runOp, modalRun, hrespj, Except.map]
  · intro r hop
    have hop2 : op = Op.replyOp r := hop
    subst hop2
    simp only [outAt, hstep]
    cases oc <;> simp [runOp, replyRun, hrespj]

/-- A concrete two-step sequence: a successful initial `reply`, then an
`autocomplete` attempt. -/
def demoSteps : List (Op × Outcome) :=
  [(Op.replyOp { content := "a", update_last := false }, Outcome.ok 1),
    (Op.autocompleteOp, Outcome.ok 2)]

/-- Witness for C1 at a concrete input: the first `reply` of `demoSteps`
succeeds, and the `autocomplete` after it fails with `AlreadyResponded`
making no network call. -/
theorem state_monotonicity_after_success_witness :
    0 < 1 ∧
    isOkResult (outAt InteractionType.applicationCommand demoSteps 0).2 =
      true ∧
    outAt InteractionType.applicationCommand demoSteps 1 =
      ([], Except.error TrackerError.alreadyResponded) :=
  ⟨Nat.zero_lt_one, rfl,
    (state_monotonicity_after_success InteractionType.applicationCommand
      demoSteps 0 1 Nat.zero_lt_one rfl).1 rfl⟩

end Sparkle
